import Mathlib

/-!
Shallow embedding of the `doug` desktop backend's command layer:
the shared state container (`src-tauri/src/state.rs`), the agent/LLM
handler (`commands/agent.rs`), the task-list handler
(`commands/todoist_api.rs`) and the settings handler
(`commands/settings.rs`).

HTTP is modelled by an oracle function from the outbound request (url,
headers, body as structured data) to an abstract result; each handler is
a pure function of the shared state, the request payload and the oracle,
returning the resulting state, the outbound request it issued (if any)
and the `Result` value the Rust handler returns.  JSON values are
modelled by an inductive mirroring `serde_json::Value` (numbers as `Int`,
which suffices for the fields these handlers touch); `f64` generation
options are modelled as exact rationals.
-/

namespace Doug

/-- A JSON value, mirroring `serde_json::Value` (numbers restricted to
integers, which is all the embedded code produces or consumes). -/
inductive Json where
  | null : Json
  | bool : Bool → Json
  | num : Int → Json
  | str : String → Json
  | arr : List Json → Json
  | obj : List (String × Json) → Json

/-- `Value::index` for a string key, as used by `v["response"]`: field
lookup on an object, `Null` on a missing key or a non-object. -/
def Json.index : Json → String → Json
  | Json.obj fields, k => ((fields.lookup k).getD Json.null)
  | _, _ => Json.null

/-- `Value::as_str`: `some` on a JSON string, `none` otherwise. -/
def Json.as_str : Json → Option String
  | Json.str s => some s
  | _ => none

/-- The process environment, as a partial map from variable names to
values (`std::env::var` succeeding iff the map is defined there). -/
def Env : Type := String → Option String

/-- The shared state container of `state.rs` (`AppState`).  The HTTP
client is an opaque token (its connection pool is outside the model). -/
structure AppState where
  http : Unit
  todoist_base : String
  todoist_key : String
  /-- Modelled from the spec: `state.rs` declares no model-name field,
  but `settings.rs`'s `set_model` dereferences `state.model_name`; the
  spec gives the field and its default `"llama3.2:3b-instruct"`. -/
  model_name : String
deriving DecidableEq

/-- `AppState::new` from `state.rs`: reads `TODOIST_BASE_URL` and
`TODOIST_API_KEY` with defaults; no failure path.  The `model_name`
initialisation is modelled from the spec (see the field's comment):
`state.rs` itself has no such field to initialise. -/
def AppState.new (env : Env) : AppState :=
  { http := ()
    todoist_base := (env "TODOIST_BASE_URL").getD "https://api.todoist.com/rest/v2"
    todoist_key := (env "TODOIST_API_KEY").getD ""
    model_name := "llama3.2:3b-instruct" }

/-! ## Settings handler (`commands/settings.rs`) -/

/-- Request payload of `set_model`. -/
structure SetModelReq where
  model : String

/-- `set_model`: overwrite the model-name field unconditionally and
return `Ok(())`. -/
def set_model (s : AppState) (req : SetModelReq) : AppState × Except String Unit :=
  ({ s with model_name := req.model }, Except.ok ())

/-! ## Agent handler (`commands/agent.rs`) -/

/-- Request payload of `agent_respond`. -/
structure AgentReq where
  persona : String
  task : String
  user_msg : String

/-- The fixed generation options of the `/api/generate` body
(`temperature: 0.3` as the exact rational, `num_predict: 256`). -/
structure GenOptions where
  temperature : ℚ
  num_predict : Nat
deriving DecidableEq

/-- The JSON body `agent_respond` posts to the generate endpoint. -/
structure GenerateBody where
  model : String
  prompt : String
  stream : Bool
  options : GenOptions
deriving DecidableEq

/-- An outbound POST of the agent handler: target url and JSON body. -/
structure AgentPost where
  url : String
  body : GenerateBody
deriving DecidableEq

/-- Result of the POST as the handler observes it: a transport error
with its description, or a response whose `.json()` read either parses
to a value or fails with an error description.  (`agent.rs` never
inspects the status code, so the model does not carry one.) -/
inductive AgentHttpResult where
  | transportError : String → AgentHttpResult
  | response : Except String Json → AgentHttpResult

/-- The system-instruction string of `agent_respond`:
`format!("You are an on-device assistant.\nPersonality: {}\nTask: {}\n- Be concise.\n", req.persona, req.task)`. -/
def systemOf (req : AgentReq) : String :=
  "You are an on-device assistant.\nPersonality: " ++ req.persona ++
    "\nTask: " ++ req.task ++ "\n- Be concise.\n"

/-- The final prompt: `format!("{system}\n\nUser: {}\nAssistant:", req.user_msg)`. -/
def promptOf (req : AgentReq) : String :=
  systemOf req ++ "\n\nUser: " ++ req.user_msg ++ "\nAssistant:"

/-- The JSON body: model hardcoded to `"llama3.2:3b-instruct"`, the
prompt, `stream: false`, `options: { temperature: 0.3, num_predict: 256 }`. -/
def agentBody (req : AgentReq) : GenerateBody :=
  { model := "llama3.2:3b-instruct"
    prompt := promptOf req
    stream := false
    options := { temperature := 3 / 10, num_predict := 256 } }

/-- The outbound POST of `agent_respond`: the fixed local endpoint and
the body above. -/
def agentPostOf (req : AgentReq) : AgentPost :=
  { url := "http://127.0.0.1:11434/api/generate", body := agentBody req }

/-- Outcome of an `agent_respond` invocation: the state afterwards, the
request it sent, and the returned `Result<String, String>`. -/
structure AgentOutcome where
  state : AppState
  request : AgentPost
  result : Except String String

/-- `agent_respond`: build the prompt and body, POST them, map a
transport error or a JSON-parse error to `Err(e.to_string())`, and on a
parsed value return `v["response"].as_str().unwrap_or("").to_string()`. -/
def agent_respond (s : AppState) (req : AgentReq)
    (oracle : AgentPost → AgentHttpResult) : AgentOutcome :=
  { state := s
    request := agentPostOf req
    result :=
      match oracle (agentPostOf req) with
      | AgentHttpResult.transportError e => Except.error e
      | AgentHttpResult.response (Except.error e) => Except.error e
      | AgentHttpResult.response (Except.ok v) =>
          Except.ok (((Json.index v "response").as_str).getD "") }

/-! ## Task-list handler (`commands/todoist_api.rs`) -/

/-- The decoded task record (`TodoistTask` in `todoist_api.rs`): two
required string fields, `#[serde(default)]` optional fields, and a
`#[serde(flatten)]` bag capturing every unknown field verbatim. -/
structure TodoistTask where
  id : String
  content : String
  is_completed : Bool
  project_id : Option String
  section_id : Option String
  labels : Option (List String)
  priority : Option Int
  due : Option Json
  extra : Json

/-- Serde decoding of a required `String` field (second argument is the
field name, used in the error description). -/
def decodeString : Option Json → String → Except String String
  | some (Json.str s), _ => Except.ok s
  | some _, name => Except.error ("invalid type for field " ++ name)
  | none, name => Except.error ("missing field " ++ name)

/-- Serde decoding of `#[serde(default)] bool`: absent defaults to
`false`. -/
def decodeBoolDefault : Option Json → Except String Bool
  | some (Json.bool b) => Except.ok b
  | some _ => Except.error "invalid type: expected a boolean"
  | none => Except.ok false

/-- Serde decoding of `#[serde(default)] Option<String>`: absent or
`null` decodes to `none`. -/
def decodeOptString : Option Json → Except String (Option String)
  | some Json.null => Except.ok none
  | some (Json.str s) => Except.ok (some s)
  | some _ => Except.error "invalid type: expected a string or null"
  | none => Except.ok none

/-- Element-wise decoding of a `Vec<String>`. -/
def decodeStringList : List Json → Except String (List String)
  | [] => Except.ok []
  | Json.str s :: rest => do
      let tail ← decodeStringList rest
      Except.ok (s :: tail)
  | _ :: _ => Except.error "invalid type: expected a string"

/-- Serde decoding of `#[serde(default)] Option<Vec<String>>`. -/
def decodeOptLabels : Option Json → Except String (Option (List String))
  | some Json.null => Except.ok none
  | some (Json.arr xs) => do
      let l ← decodeStringList xs
      Except.ok (some l)
  | some _ => Except.error "invalid type: expected a sequence or null"
  | none => Except.ok none

/-- Serde decoding of `#[serde(default)] Option<i32>`, with the i32
range check serde performs. -/
def decodeOptI32 : Option Json → Except String (Option Int)
  | some Json.null => Except.ok none
  | some (Json.num n) =>
      if -(2 ^ 31) ≤ n ∧ n < 2 ^ 31 then Except.ok (some n)
      else Except.error "invalid value: integer out of i32 range"
  | some _ => Except.error "invalid type: expected an integer or null"
  | none => Except.ok none

/-- Serde decoding of `#[serde(default)] Option<serde_json::Value>`:
absent or `null` is `none`, any other value is kept as is. -/
def decodeOptValue : Option Json → Except String (Option Json)
  | some Json.null => Except.ok none
  | some v => Except.ok (some v)
  | none => Except.ok none

/-- The field names `TodoistTask`'s derive consumes; everything else
lands in the flattened `extra` bag. -/
def knownTaskKeys : List String :=
  ["id", "content", "is_completed", "project_id", "section_id",
   "labels", "priority", "due"]

/-- Serde decoding of one `TodoistTask` from a JSON value: requires an
object, decodes each declared field (with its default when absent) and
collects the remaining fields verbatim into `extra`. -/
def decodeTask : Json → Except String TodoistTask
  | Json.obj fields => do
      let id ← decodeString (fields.lookup "id") "id"
      let content ← decodeString (fields.lookup "content") "content"
      let isc ← decodeBoolDefault (fields.lookup "is_completed")
      let pid ← decodeOptString (fields.lookup "project_id")
      let sid ← decodeOptString (fields.lookup "section_id")
      let labels ← decodeOptLabels (fields.lookup "labels")
      let prio ← decodeOptI32 (fields.lookup "priority")
      let due ← decodeOptValue (fields.lookup "due")
      Except.ok
        { id := id, content := content, is_completed := isc
          project_id := pid, section_id := sid, labels := labels
          priority := prio, due := due
          extra := Json.obj
            (fields.filter fun kv => !(knownTaskKeys.contains kv.1)) }
  | _ => Except.error "invalid type: expected a task object"

/-- Element-wise decoding of the task list. -/
def decodeTaskList : List Json → Except String (List TodoistTask)
  | [] => Except.ok []
  | v :: rest => do
      let t ← decodeTask v
      let ts ← decodeTaskList rest
      Except.ok (t :: ts)

/-- Serde decoding of `Vec<TodoistTask>` from a JSON value. -/
def decodeTasks : Json → Except String (List TodoistTask)
  | Json.arr xs => decodeTaskList xs
  | _ => Except.error "invalid type: expected a sequence of tasks"

/-- The canonical reason phrases of the `http` crate's status registry,
used by `Display for StatusCode`. -/
def canonicalReason : Nat → Option String
  | 100 => some "Continue"
  | 101 => some "Switching Protocols"
  | 102 => some "Processing"
  | 200 => some "OK"
  | 201 => some "Created"
  | 202 => some "Accepted"
  | 203 => some "Non-Authoritative Information"
  | 204 => some "No Content"
  | 205 => some "Reset Content"
  | 206 => some "Partial Content"
  | 207 => some "Multi-Status"
  | 208 => some "Already Reported"
  | 226 => some "IM Used"
  | 300 => some "Multiple Choices"
  | 301 => some "Moved Permanently"
  | 302 => some "Found"
  | 303 => some "See Other"
  | 304 => some "Not Modified"
  | 305 => some "Use Proxy"
  | 307 => some "Temporary Redirect"
  | 308 => some "Permanent Redirect"
  | 400 => some "Bad Request"
  | 401 => some "Unauthorized"
  | 402 => some "Payment Required"
  | 403 => some "Forbidden"
  | 404 => some "Not Found"
  | 405 => some "Method Not Allowed"
  | 406 => some "Not Acceptable"
  | 407 => some "Proxy Authentication Required"
  | 408 => some "Request Timeout"
  | 409 => some "Conflict"
  | 410 => some "Gone"
  | 411 => some "Length Required"
  | 412 => some "Precondition Failed"
  | 413 => some "Payload Too Large"
  | 414 => some "URI Too Long"
  | 415 => some "Unsupported Media Type"
  | 416 => some "Range Not Satisfiable"
  | 417 => some "Expectation Failed"
  | 418 => some "I\x27m a teapot"
  | 421 => some "Misdirected Request"
  | 422 => some "Unprocessable Entity"
  | 423 => some "Locked"
  | 424 => some "Failed Dependency"
  | 426 => some "Upgrade Required"
  | 428 => some "Precondition Required"
  | 429 => some "Too Many Requests"
  | 431 => some "Request Header Fields Too Large"
  | 451 => some "Unavailable For Legal Reasons"
  | 500 => some "Internal Server Error"
  | 501 => some "Not Implemented"
  | 502 => some "Bad Gateway"
  | 503 => some "Service Unavailable"
  | 504 => some "Gateway Timeout"
  | 505 => some "HTTP Version Not Supported"
  | 506 => some "Variant Also Negotiates"
  | 507 => some "Insufficient Storage"
  | 508 => some "Loop Detected"
  | 510 => some "Not Extended"
  | 511 => some "Network Authentication Required"
  | _ => none

/-- `Display for http::StatusCode`: the numeric code, a space, and the
canonical reason phrase (or a fixed placeholder). -/
def statusDisplay (code : Nat) : String :=
  toString code ++ " " ++ ((canonicalReason code).getD "<unknown status code>")

/-- The outbound GET of `get_all_tasks`: url `{base}/tasks`, bearer
token, `Accept` header, and the explicit timeout in seconds. -/
structure HttpGetRequest where
  url : String
  bearer : String
  accept : String
  timeout_secs : Nat
deriving DecidableEq

/-- Result of the GET as the handler observes it: a transport error, or
a response carrying the status code, the outcome of a `.text()` read
(`none` when the body read fails) and the outcome of a `.json()` parse. -/
inductive HttpGetResult where
  | transportError : String → HttpGetResult
  | response : Nat → Option String → Except String Json → HttpGetResult

/-- The request `get_all_tasks` builds:
`GET {todoist_base}/tasks` with `bearer_auth(key)`,
`Accept: application/json` and a 10-second timeout. -/
def tasksRequestOf (s : AppState) : HttpGetRequest :=
  { url := s.todoist_base ++ "/tasks"
    bearer := s.todoist_key
    accept := "application/json"
    timeout_secs := 10 }

/-- Outcome of a `get_all_tasks` invocation: state afterwards, the
request issued (`none` when the handler returned before any network
call) and the returned `Result<Vec<TodoistTask>, String>`. -/
structure TasksOutcome where
  state : AppState
  request : Option HttpGetRequest
  result : Except String (List TodoistTask)

/-- `get_all_tasks`: fail on an empty key before any network call;
otherwise GET `{base}/tasks`, mapping a transport error to
`"Request error: {e}"`, a non-2xx status to
`"Upstream error {code}: {body}"` (body text read defaulting to the
empty string), and decoding the body on a 2xx status with decode
failures mapped to `"JSON error: {e}"`. -/
def get_all_tasks (s : AppState)
    (oracle : HttpGetRequest → HttpGetResult) : TasksOutcome :=
  if s.todoist_key = "" then
    { state := s, request := none
      result := Except.error "Missing TODOIST_API_KEY (set it in your env)" }
  else
    { state := s, request := some (tasksRequestOf s)
      result :=
        match oracle (tasksRequestOf s) with
        | HttpGetResult.transportError e =>
            Except.error ("Request error: " ++ e)
        | HttpGetResult.response status text json =>
            if 200 ≤ status ∧ status < 300 then
              match json with
              | Except.error e => Except.error ("JSON error: " ++ e)
              | Except.ok v =>
                  match decodeTasks v with
                  | Except.error e => Except.error ("JSON error: " ++ e)
                  | Except.ok tasks => Except.ok tasks
            else
              Except.error
                ("Upstream error " ++ statusDisplay status ++ ": " ++
                  text.getD "") }

/-- Substring containment, stated by explicit decomposition. -/
def strContains (hay needle : String) : Prop :=
  ∃ pre post, hay = pre ++ needle ++ post

/-- The optional field names of `TodoistTask` (the ones carrying
`#[serde(default)]`). -/
def optionalTaskKeys : List String :=
  ["is_completed", "project_id", "section_id", "labels", "priority", "due"]

/-! ## Fixtures for concrete instantiations -/

/-- A state with an empty task-API key. -/
def emptyKeyState : AppState :=
  { http := (), todoist_base := "https://api.todoist.com/rest/v2"
    todoist_key := "", model_name := "llama3.2:3b-instruct" }

/-- A state with a non-empty task-API key. -/
def keyedState : AppState :=
  { http := (), todoist_base := "https://api.todoist.com/rest/v2"
    todoist_key := "k", model_name := "llama3.2:3b-instruct" }

/-- A sample agent request. -/
def sampleAgentReq : AgentReq :=
  { persona := "pirate", task := "answer questions", user_msg := "hello" }

/-- A payload for one task missing every optional field, with one
unknown field. -/
def taskFields : List (String × Json) :=
  [("id", Json.str "1"), ("content", Json.str "buy milk"),
   ("foo", Json.str "bar")]

/-- An oracle answering 200 with the single-task payload above. -/
def okTasksOracle : HttpGetRequest → HttpGetResult :=
  fun _ => HttpGetResult.response 200 none
    (Except.ok (Json.arr [Json.obj taskFields]))

/-- An oracle answering 404 with body `"not found"`. -/
def status404Oracle : HttpGetRequest → HttpGetResult :=
  fun _ => HttpGetResult.response 404 (some "not found")
    (Except.error "body is not json")

/-- An oracle whose generate response is `{"response": "hi"}`. -/
def agentOkOracleHi : AgentPost → AgentHttpResult :=
  fun _ => AgentHttpResult.response
    (Except.ok (Json.obj [("response", Json.str "hi")]))

/-- An oracle whose generate response is `{}`. -/
def agentOkOracleEmpty : AgentPost → AgentHttpResult :=
  fun _ => AgentHttpResult.response (Except.ok (Json.obj []))

/-- An oracle whose generate response body fails to parse as JSON. -/
def agentBadJsonOracle : AgentPost → AgentHttpResult :=
  fun _ => AgentHttpResult.response
    (Except.error "error decoding response body")

/-! ## Helper lemmas -/

/-- `get_all_tasks` never changes the state. -/
theorem get_all_tasks_state_eq (s : AppState)
    (oracle : HttpGetRequest → HttpGetResult) :
    (get_all_tasks s oracle).state = s := by
  unfold get_all_tasks
  split <;> rfl

/-! ## Claims -/

/-- Claim C1: for every persona, task and user message (arbitrary
strings, no escaping), the prompt `agent_respond` sends is the fixed
system-instruction template with `persona` and `task` substituted,
followed by a blank-line separator, the literal prefix `"User: "`, the
user message, and the literal suffix `"\nAssistant:"`. -/
theorem agent_respond_prompt_is_template (p t m : String) (s : AppState)
    (oracle : AgentPost → AgentHttpResult) :
    (agent_respond s { persona := p, task := t, user_msg := m } oracle).request.body.prompt =
      "You are an on-device assistant.\nPersonality: " ++ p ++ "\nTask: " ++ t ++
        "\n- Be concise.\n" ++ "\n\n" ++ "User: " ++ m ++ "\nAssistant:" := by
  simp only [agent_respond, agentPostOf, agentBody, promptOf, systemOf,
    String.append_assoc]
  rfl

/-- Claim C2: the body `agent_respond` posts has the hardcoded model
`"llama3.2:3b-instruct"`, streaming disabled, temperature 3/10 and 256
maximum output tokens; it is independent of the shared state, and in
particular unchanged by any prior `set_model` call. -/
theorem agent_respond_body_hardcoded (s s' : AppState) (req : AgentReq)
    (oracle : AgentPost → AgentHttpResult) (m : SetModelReq) :
    (agent_respond s req oracle).request.body =
      { model := "llama3.2:3b-instruct", prompt := promptOf req, stream := false
        options := { temperature := 3 / 10, num_predict := 256 } } ∧
    (agent_respond s' req oracle).request = (agent_respond s req oracle).request ∧
    (agent_respond (set_model s m).1 req oracle).request =
      (agent_respond s req oracle).request :=
  ⟨rfl, rfl, rfl⟩

/-- Claim C3: with an empty stored task-API key, `get_all_tasks` issues
no outbound request and fails with exactly the fixed missing-key
message. -/
theorem get_all_tasks_missing_key (s : AppState)
    (oracle : HttpGetRequest → HttpGetResult)
    (hkey : s.todoist_key = "") :
    get_all_tasks s oracle =
      { state := s, request := none
        result := Except.error "Missing TODOIST_API_KEY (set it in your env)" } := by
  simp only [get_all_tasks, hkey, if_pos]

/-- Witness for C3 at a concrete empty-key state. -/
theorem get_all_tasks_missing_key_witness :
    get_all_tasks emptyKeyState (fun _ => HttpGetResult.transportError "unreachable") =
      { state := emptyKeyState, request := none
        result := Except.error "Missing TODOIST_API_KEY (set it in your env)" } :=
  get_all_tasks_missing_key emptyKeyState
    (fun _ => HttpGetResult.transportError "unreachable") rfl

/-- Claim C4: a task object in a 2xx response that carries `id` and
`content` but none of the optional keys decodes without failure to a
task whose `is_completed` is `false`, whose optional fields are all
absent, and whose unknown fields are preserved verbatim in `extra`. -/
theorem get_all_tasks_lenient_decode (s : AppState)
    (oracle : HttpGetRequest → HttpGetResult)
    (fields : List (String × Json)) (i c : String)
    (hkey : ¬ s.todoist_key = "")
    (hid : fields.lookup "id" = some (Json.str i))
    (hcontent : fields.lookup "content" = some (Json.str c))
    (hopt : ∀ k ∈ optionalTaskKeys, fields.lookup k = none)
    (horacle : oracle (tasksRequestOf s) =
      HttpGetResult.response 200 none (Except.ok (Json.arr [Json.obj fields]))) :
    (get_all_tasks s oracle).result = Except.ok
      [{ id := i, content := c, is_completed := false, project_id := none
         section_id := none, labels := none, priority := none, due := none
         extra := Json.obj
           (fields.filter fun kv => !(knownTaskKeys.contains kv.1)) }] := by
  have h1 := hopt "is_completed" (by simp [optionalTaskKeys])
  have h2 := hopt "project_id" (by simp [optionalTaskKeys])
  have h3 := hopt "section_id" (by simp [optionalTaskKeys])
  have h4 := hopt "labels" (by simp [optionalTaskKeys])
  have h5 := hopt "priority" (by simp [optionalTaskKeys])
  have h6 := hopt "due" (by simp [optionalTaskKeys])
  simp only [get_all_tasks, if_neg hkey, horacle]
  norm_num
  simp [decodeTasks, decodeTaskList, decodeTask, decodeString,
    decodeBoolDefault, decodeOptString, decodeOptLabels, decodeOptI32,
    decodeOptValue, hid, hcontent, h1, h2, h3, h4, h5, h6]
  rfl

/-- Witness for C4 at the concrete single-task payload. -/
theorem get_all_tasks_lenient_decode_witness :
    (get_all_tasks keyedState okTasksOracle).result = Except.ok
      [{ id := "1", content := "buy milk", is_completed := false
         project_id := none, section_id := none, labels := none
         priority := none, due := none
         extra := Json.obj
           (taskFields.filter fun kv => !(knownTaskKeys.contains kv.1)) }] :=
  get_all_tasks_lenient_decode keyedState okTasksOracle taskFields "1" "buy milk"
    (by simp [keyedState]) rfl rfl (fun k hk => by fin_cases hk <;> rfl) rfl

/-- Claim C5: on a non-2xx response, `get_all_tasks` fails with a
message embedding the numeric status code and the raw body text (the
empty string when the body read fails). -/
theorem get_all_tasks_upstream_error (s : AppState)
    (oracle : HttpGetRequest → HttpGetResult)
    (status : Nat) (text : Option String) (json : Except String Json)
    (hkey : ¬ s.todoist_key = "")
    (horacle : oracle (tasksRequestOf s) = HttpGetResult.response status text json)
    (hstatus : ¬ (200 ≤ status ∧ status < 300)) :
    (get_all_tasks s oracle).result =
      Except.error ("Upstream error " ++ statusDisplay status ++ ": " ++ text.getD "") ∧
    strContains ("Upstream error " ++ statusDisplay status ++ ": " ++ text.getD "")
      (toString status) ∧
    strContains ("Upstream error " ++ statusDisplay status ++ ": " ++ text.getD "")
      (text.getD "") := by
  refine ⟨?_, ?_, ?_⟩
  · simp only [get_all_tasks, if_neg hkey, horacle, if_neg hstatus]
  · exact ⟨"Upstream error ",
      " " ++ ((canonicalReason status).getD "<unknown status code>") ++ ": " ++ text.getD "",
      by simp [statusDisplay, String.append_assoc]⟩
  · exact ⟨"Upstream error " ++ statusDisplay status ++ ": ", "",
      by simp [String.append_empty, String.append_assoc]⟩

/-- Witness for C5: a 404 with body `"not found"` yields an error
containing both `404` and `not found`. -/
theorem get_all_tasks_upstream_error_witness :
    (get_all_tasks keyedState status404Oracle).result =
      Except.error ("Upstream error " ++ statusDisplay 404 ++ ": " ++ (some "not found").getD "") ∧
    strContains ("Upstream error " ++ statusDisplay 404 ++ ": " ++ (some "not found").getD "")
      (toString 404) ∧
    strContains ("Upstream error " ++ statusDisplay 404 ++ ": " ++ (some "not found").getD "")
      ((some "not found").getD "") :=
  get_all_tasks_upstream_error keyedState status404Oracle 404 (some "not found")
    (Except.error "body is not json") (by simp [keyedState]) rfl (by decide)

/-- Claim C6: on a body that parses as JSON, `agent_respond` returns the
`response` field when it is a string and the empty string when it is
absent or not a string, never failing. -/
theorem agent_respond_response_extraction (s : AppState) (req : AgentReq)
    (oracle : AgentPost → AgentHttpResult) (v : Json)
    (horacle : oracle (agentPostOf req) = AgentHttpResult.response (Except.ok v)) :
    (∀ t, (Json.index v "response").as_str = some t →
        (agent_respond s req oracle).result = Except.ok t) ∧
    ((Json.index v "response").as_str = none →
        (agent_respond s req oracle).result = Except.ok "") := by
  constructor
  · intro t ht
    simp only [agent_respond, horacle, ht, Option.getD_some]
  · intro h
    simp only [agent_respond, horacle, h, Option.getD_none]

/-- Witness for C6: `{"response": "hi"}` yields `"hi"`, `{}` yields
`""`. -/
theorem agent_respond_response_extraction_witness :
    (agent_respond keyedState sampleAgentReq agentOkOracleHi).result = Except.ok "hi" ∧
    (agent_respond keyedState sampleAgentReq agentOkOracleEmpty).result = Except.ok "" :=
  ⟨(agent_respond_response_extraction keyedState sampleAgentReq agentOkOracleHi
      (Json.obj [("response", Json.str "hi")]) rfl).1 "hi" rfl,
   (agent_respond_response_extraction keyedState sampleAgentReq agentOkOracleEmpty
      (Json.obj []) rfl).2 rfl⟩

/-- Claim C7 (evaluation of the construction code that exists): with an
empty environment, `AppState.new` falls back to the default base URL and
the empty key.  The model-name component of the record is the
spec-modelled field (see `AppState.model_name`): `state.rs` itself
declares and initialises no such field. -/
theorem appState_new_empty_env_defaults :
    AppState.new (fun _ => none) =
      { http := (), todoist_base := "https://api.todoist.com/rest/v2"
        todoist_key := "", model_name := "llama3.2:3b-instruct" } := rfl

/-- Claim C9: `get_all_tasks` and `agent_respond` leave the whole state
unchanged; `set_model` writes the model-name field and leaves every
other field unchanged. -/
theorem handlers_frame_effects (s : AppState)
    (o1 : HttpGetRequest → HttpGetResult) (req : AgentReq)
    (o2 : AgentPost → AgentHttpResult) (r : SetModelReq) :
    (get_all_tasks s o1).state = s ∧
    (agent_respond s req o2).state = s ∧
    (set_model s r).1.model_name = r.model ∧
    (set_model s r).1.http = s.http ∧
    (set_model s r).1.todoist_base = s.todoist_base ∧
    (set_model s r).1.todoist_key = s.todoist_key :=
  ⟨get_all_tasks_state_eq s o1, rfl, rfl, rfl, rfl, rfl⟩

/-- Claim C10: when the generate endpoint's body does not parse as JSON,
`agent_respond` returns the parse error's description as its error, not
any string result. -/
theorem agent_respond_parse_error (s : AppState) (req : AgentReq)
    (oracle : AgentPost → AgentHttpResult) (e : String)
    (horacle : oracle (agentPostOf req) = AgentHttpResult.response (Except.error e)) :
    (agent_respond s req oracle).result = Except.error e := by
  simp only [agent_respond, horacle]

/-- Witness for C10 at a concrete unparseable body. -/
theorem agent_respond_parse_error_witness :
    (agent_respond keyedState sampleAgentReq agentBadJsonOracle).result =
      Except.error "error decoding response body" :=
  agent_respond_parse_error keyedState sampleAgentReq agentBadJsonOracle
    "error decoding response body" rfl

end Doug
